import Mathlib

/-!
Verification of the post-service caching subsystem of a blog backend.

The embedding models the post controller: listing with a read-through cache,
creation, update and deletion with ownership checks and cache coherence,
together with the request-body validation schemas. The Content Store (document
database) is modelled as lists of posts, categories and users; the Cache Layer
(key-value store with TTL) as an association list from string keys to entries
carrying an optional TTL. Serialization (JSON round-trip) is modelled as the
identity on the typed cached value.
-/

/-- A stored post document (Content Store representation). -/
structure Post where
  id : String
  content : String
  author : String
  image : Option String
  tags : List String
  category : String
  createdAt : Nat
deriving DecidableEq

/-- A category document: unique name, looked up by name. -/
structure Category where
  id : String
  name : String
deriving DecidableEq

/-- A user document, restricted to the fields the post service resolves. -/
structure User where
  id : String
  username : String
  profilePicture : String
  fullname : String
deriving DecidableEq

/-- The author fields selected when populating a post. -/
structure UserView where
  username : String
  profilePicture : String
  fullname : String
deriving DecidableEq

/-- A populated post, as returned by listing and cached under the list key:
author and category references resolved to display fields. -/
structure PPost where
  id : String
  content : String
  author : Option UserView
  image : Option String
  tags : List String
  category : Option String
  createdAt : Nat
deriving DecidableEq

/-- The Content Store: posts, categories and users. -/
structure Store where
  posts : List Post
  categories : List Category
  users : List User
deriving DecidableEq

/-- A Cache Layer entry: the cached (deserialized) list value and the
time-to-live it was written with; a plain overwrite clears any TTL. -/
structure CacheEntry where
  value : List PPost
  ttl : Option Nat
deriving DecidableEq

/-- The Cache Layer: an association list from keys to entries. -/
abbrev Cache := List (String × CacheEntry)

/-- The combined world the post service acts on. -/
structure World where
  store : Store
  cache : Cache
deriving DecidableEq

/-- Cache Layer read of a key. -/
def cacheGet (c : Cache) (k : String) : Option CacheEntry :=
  (c.find? (fun e => e.1 == k)).map (fun e => e.2)

/-- Cache Layer write of a key, with an optional TTL; overwrites any
previous entry for the key. -/
def cacheSet (c : Cache) (k : String) (v : List PPost) (ttl : Option Nat) : Cache :=
  (k, CacheEntry.mk v ttl) :: c.filter (fun e => e.1 != k)

/-- Cache Layer deletion of a key. -/
def cacheDel (c : Cache) (k : String) : Cache :=
  c.filter (fun e => e.1 != k)

/-- Global list cache key, `posts:all`. -/
def CACHE_KEY : String := "posts:all"

/-- Per-user profile cache key, prefix profile: followed by the user id. -/
def PROFILE_CACHE_KEY (userId : String) : String := "profile:" ++ userId

/-- Per-user own-posts cache key, prefix posts: followed by the user id. -/
def POSTS_CACHE_KEY (userId : String) : String := "posts:" ++ userId

def authRequiredMsg : String := "You are not authenticated. Please Signin"
def contentMinMsg : String := "Content should have at least 1 characters"
def categoryRequiredMsg : String := "Category is required"
def requiredMsg : String := "Required"
def cloudinaryFailMsg : String := "Image upload to Cloudinary failed"
def getAllFailMsg : String := "Failed to get all posts"
def updateFailMsg : String := "Failed to update post"
def updNotFoundMsg : String := "Failed to update: Post not found"
def updNotAuthMsg : String := "You are not authorized to update this post"
def delNotFoundMsg : String := "Failed to delete: Post not found"
def delNotAuthMsg : String := "You are not authorized to delete this post"
def invalidIdMsg : String := "Invalid post ID"

/-- JavaScript string trim: strip whitespace from both ends. -/
def jsTrim (s : String) : String :=
  String.mk (((s.toList.dropWhile Char.isWhitespace).reverse.dropWhile Char.isWhitespace).reverse)

/-- Mongoose ObjectId syntactic validity: a 24-character hexadecimal string,
or any 12-character string. -/
def isValidObjectId (s : String) : Bool :=
  (s.length == 24 && s.toList.all (fun c => c.isDigit ||
    (97 ≤ c.toNat && c.toNat ≤ 102) || (65 ≤ c.toNat && c.toNat ≤ 70))) ||
  s.length == 12

/-- Raw request body for post creation, before validation; a `none` field is
an absent key. -/
structure RawCreateBody where
  content : Option String
  tags : Option (List String)
  category : Option String
deriving DecidableEq

/-- Post-creation body after validation: content and category trimmed. -/
structure ParsedCreate where
  content : String
  tags : Option (List String)
  category : String
deriving DecidableEq

/-- Validation issues for the `category` field. -/
def categoryIssues (c : Option String) : List String :=
  match c with
  | none => [requiredMsg]
  | some s => if s.length ≥ 1 then [] else [categoryRequiredMsg]

/-- The `createPostValidation` schema: `content` a string of length ≥ 1 then
trimmed, optional `tags`, `category` a string of length ≥ 1 then trimmed.
All field issues are collected, as a ZodError does. -/
def parseCreate (b : RawCreateBody) : Except (List String) ParsedCreate :=
  match b.content, b.category with
  | some s, some c =>
    if s.length ≥ 1 then
      if c.length ≥ 1 then Except.ok (ParsedCreate.mk (jsTrim s) b.tags (jsTrim c))
      else Except.error [categoryRequiredMsg]
    else Except.error ([contentMinMsg] ++ categoryIssues (some c))
  | some s, none =>
    if s.length ≥ 1 then Except.error [requiredMsg]
    else Except.error [contentMinMsg, requiredMsg]
  | none, c => Except.error ([requiredMsg] ++ categoryIssues c)

/-- Raw request body for post update. -/
structure RawUpdateBody where
  content : Option String
deriving DecidableEq

/-- Update body after validation. -/
structure ParsedUpdate where
  content : String
deriving DecidableEq

/-- The `updatePostValidation` schema: only `content`, same rule as creation. -/
def parseUpdate (b : RawUpdateBody) : Except (List String) ParsedUpdate :=
  match b.content with
  | none => Except.error [requiredMsg]
  | some s =>
    if s.length ≥ 1 then Except.ok (ParsedUpdate.mk (jsTrim s))
    else Except.error [contentMinMsg]

/-- Resolve the author and category references of a post to display fields. -/
def populate (st : Store) (p : Post) : PPost :=
  PPost.mk p.id p.content
    ((st.users.find? (fun u => u.id == p.author)).map
      (fun u => UserView.mk u.username u.profilePicture u.fullname))
    p.image p.tags
    ((st.categories.find? (fun c => c.id == p.category)).map (fun c => c.name))
    p.createdAt

/-- Insert a post into a list sorted by `createdAt` descending. -/
def insertByCreatedDesc (p : Post) : List Post → List Post
  | [] => [p]
  | q :: qs =>
    if p.createdAt ≥ q.createdAt then p :: q :: qs
    else q :: insertByCreatedDesc p qs

/-- The store query `find().sort(\x7b createdAt: -1 \x7d)`: all posts sorted by
creation time descending. -/
def sortByCreatedAtDesc : List Post → List Post
  | [] => []
  | p :: ps => insertByCreatedDesc p (sortByCreatedAtDesc ps)

/-- `findById`: the first document whose id matches. -/
def findById (posts : List Post) (postId : String) : Option Post :=
  posts.find? (fun p => p.id == postId)

/-- The fully resolved listing a fresh store query returns: all posts sorted
by creation time descending, each populated. -/
def listingOf (st : Store) : List PPost :=
  (sortByCreatedAtDesc st.posts).map (populate st)

/-- An HTTP-shaped response of the post service. -/
inductive Resp where
  | listOk (data : List PPost)
  | createOk (content : String) (author : String) (image : Option String)
      (tags : List String) (category : String)
  | updateOk (post : PPost)
  | deleteOk (deletedId : String)
  | err (status : Nat) (msgs : List String)
deriving DecidableEq

/-- HTTP status of a response. -/
def Resp.status : Resp → Nat
  | .listOk _ => 200
  | .createOk _ _ _ _ _ => 201
  | .updateOk _ => 200
  | .deleteOk _ => 200
  | .err s _ => s

/-- Externally observable store/cache accesses, for claims about which
collaborator calls an operation performs. -/
inductive Ev where
  | storeRead
  | storeWrite
  | cacheRead
  | cacheWrite
  | cacheDelete
deriving DecidableEq

/-- Failure switches for the collaborator calls made by the listing handler:
whether the cache read, the store query, or the cache write raises. -/
structure ListEnv where
  cacheGetFails : Bool
  storeFails : Bool
  cacheSetFails : Bool
deriving DecidableEq

/-- The environment in which every collaborator call succeeds. -/
def okListEnv : ListEnv := ListEnv.mk false false false

/-- `getAllPosts`: the whole handler body sits in one try/catch, so a raise
from any collaborator call is answered by the catch block with a 500. On a
cache hit the cached value is returned as-is; on a miss the sorted, populated
listing is fetched from the store, written to the cache with a TTL of 43200
seconds, and returned. -/
def getAllPosts (env : ListEnv) (w : World) : Resp × World × List Ev :=
  if env.cacheGetFails then
    (Resp.err 500 [getAllFailMsg], w, [Ev.cacheRead])
  else
    match cacheGet w.cache CACHE_KEY with
    | some e => (Resp.listOk e.value, w, [Ev.cacheRead])
    | none =>
      if env.storeFails then
        (Resp.err 500 [getAllFailMsg], w, [Ev.cacheRead, Ev.storeRead])
      else
        let allPosts := listingOf w.store
        if env.cacheSetFails then
          (Resp.err 500 [getAllFailMsg], w, [Ev.cacheRead, Ev.storeRead, Ev.cacheWrite])
        else
          (Resp.listOk allPosts,
           World.mk w.store (cacheSet w.cache CACHE_KEY allPosts (some 43200)),
           [Ev.cacheRead, Ev.storeRead, Ev.cacheWrite])

/-- A post-creation request: authenticated caller id (if any), raw body,
and the uploaded file path (if any). -/
structure CreateReq where
  user : Option String
  body : RawCreateBody
  file : Option String
deriving DecidableEq

/-- Environment for a creation request: the outcome of the Cloudinary upload
(an error message, or a possibly-null secure URL), and the identifiers and
timestamp the store assigns to new documents. -/
structure CreateEnv where
  uploadResult : Except String (Option String)
  newCatId : String
  newPostId : String
  now : Nat

/-- Get-or-create of a category by name: look the name up; if absent, save a
new category document. Returns the category and the updated store. -/
def getOrCreateCategory (name : String) (newCatId : String) (st : Store) :
    Category × Store :=
  match st.categories.find? (fun c => c.name == name) with
  | some c => (c, st)
  | none =>
    let c := Category.mk newCatId name
    (c, Store.mk st.posts (st.categories ++ [c]) st.users)

/-- The image URL a creation request ends up with: null when no file was
sent, else the secure URL from the upload (null when the uploader returned nothing). -/
def imageUrlOf (req : CreateReq) (env : CreateEnv) : Option String :=
  match req.file, env.uploadResult with
  | some _, Except.ok u => u
  | some _, Except.error _ => none
  | none, _ => none

/-- The post document a successful creation inserts. -/
def newPostOf (author : String) (parsed : ParsedCreate) (req : CreateReq)
    (env : CreateEnv) (w : World) : Post :=
  Post.mk env.newPostId parsed.content author (imageUrlOf req env)
    (parsed.tags.getD []) (getOrCreateCategory parsed.category env.newCatId w.store).1.id
    env.now

/-- Tail of `createPost` after a successful (or absent) upload: insert the
new post, populate it (the `findById` of the freshly assigned unique id
returns exactly the new document, so the lookup is modelled directly), prepend
it to the cached list when the list cache entry exists, rewrite that entry
with a plain set (clearing any TTL), and delete the profile and own-posts
cache keys of the author. -/
def finishCreate (author : String) (parsed : ParsedCreate) (cat : Category)
    (imageUrl : Option String) (env : CreateEnv) (w : World) : Resp × World :=
  let newPost := Post.mk env.newPostId parsed.content author imageUrl
    (parsed.tags.getD []) cat.id env.now
  let store2 := Store.mk (w.store.posts ++ [newPost]) w.store.categories w.store.users
  let populated := populate store2 newPost
  let cache1 :=
    match cacheGet w.cache CACHE_KEY with
    | some e => cacheSet w.cache CACHE_KEY (populated :: e.value) none
    | none => w.cache
  let cache2 := cacheDel (cacheDel cache1 (PROFILE_CACHE_KEY author)) (POSTS_CACHE_KEY author)
  (Resp.createOk newPost.content author imageUrl newPost.tags cat.name,
   World.mk store2 cache2)

/-- `createPost`: 401 without a caller identity; 400 with the field issues on
a ZodError; then get-or-create the category; then, when a file was sent,
upload it — a raised upload error is answered 500 (with the category already
saved); finally insert, patch the list cache and invalidate the per-user keys. -/
def createPost (req : CreateReq) (env : CreateEnv) (w : World) : Resp × World :=
  match req.user with
  | none => (Resp.err 401 [authRequiredMsg], w)
  | some author =>
    match parseCreate req.body with
    | Except.error es => (Resp.err 400 es, w)
    | Except.ok parsed =>
      let cs := getOrCreateCategory parsed.category env.newCatId w.store
      let w1 := World.mk cs.2 w.cache
      match req.file, env.uploadResult with
      | some _, Except.error msg => (Resp.err 500 [cloudinaryFailMsg, msg], w1)
      | some _, Except.ok u => finishCreate author parsed cs.1 u env w1
      | none, _ => finishCreate author parsed cs.1 none env w1

/-- `findByIdAndUpdate` with a `$set` of the content: update the first
document whose id matches. -/
def updateFirst (postId : String) (newContent : String) : List Post → List Post
  | [] => []
  | p :: ps =>
    if p.id == postId then
      Post.mk p.id newContent p.author p.image p.tags p.category p.createdAt :: ps
    else p :: updateFirst postId newContent ps

/-- `updatePost`: 401 without a caller identity; the body is parsed next, and
the catch block of the handler has no ZodError branch, so a validation failure is
answered 500 with the generic update-failure message; 404 when the post is
missing; 403 when the caller is not the author; otherwise apply the content
update, replace the matching cached list entry in place (only when the id is
found in the cached list), rewrite the entry with a plain set, and delete the
profile and own-posts cache keys of the caller. -/
def updatePost (postId : String) (user : Option String) (body : RawUpdateBody)
    (w : World) : Resp × World :=
  match user with
  | none => (Resp.err 401 [authRequiredMsg], w)
  | some userId =>
    match parseUpdate body with
    | Except.error _ => (Resp.err 500 [updateFailMsg], w)
    | Except.ok parsed =>
      match findById w.store.posts postId with
      | none => (Resp.err 404 [updNotFoundMsg], w)
      | some post =>
        if post.author == userId then
          let updatedPost := Post.mk post.id parsed.content post.author post.image
            post.tags post.category post.createdAt
          let store2 := Store.mk (updateFirst postId parsed.content w.store.posts)
            w.store.categories w.store.users
          let populated := populate store2 updatedPost
          let cache1 :=
            match cacheGet w.cache CACHE_KEY with
            | some e =>
              match e.value.findIdx? (fun p => p.id == postId) with
              | some i => cacheSet w.cache CACHE_KEY (e.value.set i populated) none
              | none => w.cache
            | none => w.cache
          let cache2 := cacheDel (cacheDel cache1 (PROFILE_CACHE_KEY userId))
            (POSTS_CACHE_KEY userId)
          (Resp.updateOk populated, World.mk store2 cache2)
        else (Resp.err 403 [updNotAuthMsg], w)

/-- `findByIdAndDelete`: remove the first document whose id matches. -/
def erasePost (postId : String) : List Post → List Post
  | [] => []
  | p :: ps => if p.id == postId then ps else p :: erasePost postId ps

/-- `deletePost`: 401 without a caller identity; 400 on a syntactically
invalid ObjectId, before any store access; 404 when the post is missing; 403
when the caller is not the author; otherwise remove the post, filter it out of
the cached list by id when the list cache entry exists (rewriting the entry
with a plain set), and delete the profile and own-posts cache keys of the caller. -/
def deletePost (postId : String) (user : Option String) (w : World) :
    Resp × World × List Ev :=
  match user with
  | none => (Resp.err 401 [authRequiredMsg], w, [])
  | some userId =>
    if isValidObjectId postId then
      match findById w.store.posts postId with
      | none => (Resp.err 404 [delNotFoundMsg], w, [Ev.storeRead])
      | some post =>
        if post.author == userId then
          let store2 := Store.mk (erasePost postId w.store.posts)
            w.store.categories w.store.users
          let cache1 :=
            match cacheGet w.cache CACHE_KEY with
            | some e => cacheSet w.cache CACHE_KEY
                (e.value.filter (fun p => p.id != postId)) none
            | none => w.cache
          let cache2 := cacheDel (cacheDel cache1 (PROFILE_CACHE_KEY userId))
            (POSTS_CACHE_KEY userId)
          (Resp.deleteOk postId, World.mk store2 cache2,
           [Ev.storeRead, Ev.storeWrite])
        else (Resp.err 403 [delNotAuthMsg], w, [Ev.storeRead])
    else (Resp.err 400 [invalidIdMsg], w, [])

/-! ### Concrete fixtures used by witnesses and counterexamples -/

def pid1 : String := "aaaaaaaaaaaaaaaaaaaaaaaa"
def user1 : User := User.mk ("u1") ("alice") ("pic1") ("Alice Adams")
def cat1 : Category := Category.mk ("c1") ("tech")
def post1 : Post := Post.mk pid1 ("hello") ("u1") none [] ("c1") 5
def st1 : Store := Store.mk [post1] [cat1] [user1]
def pp1 : PPost := populate st1 post1
def wHit : World := World.mk st1 [(CACHE_KEY, CacheEntry.mk [pp1] (some 43200))]
def wMiss : World := World.mk st1 []

/-! ### Cache Layer lemmas -/

set_option maxRecDepth 4000

theorem cacheGet_cacheSet_self (c : Cache) (k : String) (v : List PPost)
    (t : Option Nat) : cacheGet (cacheSet c k v t) k = some (CacheEntry.mk v t) := by
  simp [cacheGet, cacheSet, List.find?_cons]

theorem cacheGet_cacheDel_self (c : Cache) (k : String) :
    cacheGet (cacheDel c k) k = none := by
  simp only [cacheGet, cacheDel, Option.map_eq_none', List.find?_eq_none,
    List.mem_filter]
  intro e he
  simp_all

theorem cacheGet_cacheDel_ne (c : Cache) (k k2 : String) (h : k2 ≠ k) :
    cacheGet (cacheDel c k2) k = cacheGet c k := by
  simp only [cacheGet, cacheDel]
  induction c with
  | nil => rfl
  | cons hd tl ih =>
    by_cases h1 : hd.1 = k2
    · have e2 : (k2 == k) = false := beq_eq_false_iff_ne.mpr h
      simp only [List.filter_cons, List.find?_cons, h1, bne_self_eq_false,
        Bool.false_eq_true, if_false, e2, cond_false]
      exact ih
    · have e1 : (hd.1 != k2) = true := by simp [h1]
      simp only [List.filter_cons, e1, if_true, List.find?_cons]
      by_cases h2 : hd.1 = k
      · have e3 : (hd.1 == k) = true := by simp [h2]
        simp [e3]
      · have e3 : (hd.1 == k) = false := beq_eq_false_iff_ne.mpr h2
        simp only [e3, cond_false]
        exact ih

theorem profile_key_ne (u : String) : PROFILE_CACHE_KEY u ≠ CACHE_KEY := by
  intro h
  have h2 := congrArg String.data h
  rw [PROFILE_CACHE_KEY, CACHE_KEY, String.data_append] at h2
  have h3 := congrArg (fun l => l[1]?) h2
  simp at h3

theorem posts_key_ne (u : String) (hu : u ≠ ("all")) :
    POSTS_CACHE_KEY u ≠ CACHE_KEY := by
  intro h
  apply hu
  have h2 := congrArg String.data h
  rw [POSTS_CACHE_KEY, CACHE_KEY, String.data_append] at h2
  apply String.ext
  have h3 := congrArg (fun l => l.drop 6) h2
  simp at h3
  simpa using h3

/-! ### Claims -/

/-- C1: for a listing request with healthy collaborators: if the cache holds
a value under the key posts:all, the response is exactly the cached value and
no Content Store read occurs and the world is unchanged; if the cache is
empty, the store is queried for all posts sorted by creation time descending
with author and category resolved, the result is written to the cache under
posts:all with a TTL of 43200 seconds, and that same result is returned. -/
theorem getAllPosts_cache_contract (w : World) :
    (∀ e, cacheGet w.cache CACHE_KEY = some e →
      getAllPosts okListEnv w = (Resp.listOk e.value, w, [Ev.cacheRead]) ∧
      Ev.storeRead ∉ (getAllPosts okListEnv w).2.2) ∧
    (cacheGet w.cache CACHE_KEY = none →
      getAllPosts okListEnv w =
        (Resp.listOk (listingOf w.store),
         World.mk w.store (cacheSet w.cache CACHE_KEY (listingOf w.store) (some 43200)),
         [Ev.cacheRead, Ev.storeRead, Ev.cacheWrite])) := by
  constructor
  · intro e he
    simp [getAllPosts, okListEnv, he]
  · intro he
    simp [getAllPosts, okListEnv, he]

/-- Witness for C1: both the cache-hit and the cache-miss branch at concrete
worlds. -/
theorem getAllPosts_cache_contract_witness :
    (getAllPosts okListEnv wHit = (Resp.listOk [pp1], wHit, [Ev.cacheRead]) ∧
      Ev.storeRead ∉ (getAllPosts okListEnv wHit).2.2) ∧
    getAllPosts okListEnv wMiss =
      (Resp.listOk (listingOf st1),
       World.mk st1 (cacheSet [] CACHE_KEY (listingOf st1) (some 43200)),
       [Ev.cacheRead, Ev.storeRead, Ev.cacheWrite]) :=
  ⟨(getAllPosts_cache_contract wHit).1 (CacheEntry.mk [pp1] (some 43200)) rfl,
   (getAllPosts_cache_contract wMiss).2 rfl⟩

/-- C5 counterexample: with a failing cache read but a healthy store holding
a post, the listing request answers a 500 error and never reads the store —
the cache failure is not treated as a miss and no store fallback happens. -/
theorem getAllPosts_cacheFailure_counterexample :
    getAllPosts (ListEnv.mk true false false) wMiss =
      (Resp.err 500 [getAllFailMsg], wMiss, [Ev.cacheRead]) ∧
    (getAllPosts (ListEnv.mk true false false) wMiss).1.status = 500 ∧
    Ev.storeRead ∉ (getAllPosts (ListEnv.mk true false false) wMiss).2.2 := by
  refine ⟨rfl, rfl, ?_⟩
  decide

/-- C5 amended: a Cache Layer failure during listing is answered by the
single catch block of the handler with a 500 error response; a failing cache read
means the store is never consulted, and a failing cache write after a miss
fails the request even though the store data was already fetched. -/
theorem getAllPosts_cache_error_surfaces (env : ListEnv) (w : World) :
    (env.cacheGetFails = true →
      getAllPosts env w = (Resp.err 500 [getAllFailMsg], w, [Ev.cacheRead]) ∧
      Ev.storeRead ∉ (getAllPosts env w).2.2) ∧
    (env = ListEnv.mk false false true →
      cacheGet w.cache CACHE_KEY = none →
      getAllPosts env w =
        (Resp.err 500 [getAllFailMsg], w, [Ev.cacheRead, Ev.storeRead, Ev.cacheWrite])) := by
  constructor
  · intro h
    simp [getAllPosts, h]
  · intro he hc
    subst he
    simp [getAllPosts, hc]

/-- Witness for the amended C5 at concrete inputs. -/
theorem getAllPosts_cache_error_surfaces_witness :
    (getAllPosts (ListEnv.mk true false false) wHit =
      (Resp.err 500 [getAllFailMsg], wHit, [Ev.cacheRead]) ∧
     Ev.storeRead ∉ (getAllPosts (ListEnv.mk true false false) wHit).2.2) ∧
    getAllPosts (ListEnv.mk false false true) wMiss =
      (Resp.err 500 [getAllFailMsg], wMiss, [Ev.cacheRead, Ev.storeRead, Ev.cacheWrite]) :=
  ⟨(getAllPosts_cache_error_surfaces (ListEnv.mk true false false) wHit).1 rfl,
   (getAllPosts_cache_error_surfaces (ListEnv.mk false false true) wMiss).2 rfl rfl⟩

/-- C2: for every successful post creation (caller authenticated, body valid,
and either no file sent or the upload succeeded) while a cache entry exists
under posts:all, the fully resolved new post is prepended — placed at index
0, not appended — to the cached list and the entry is rewritten without a
TTL; the rest of the cached list is exactly the previous cached list,
unchanged in content and order. The side condition excludes the pathological
author id whose own-posts key would collide with the global list key. -/
theorem createPost_cache_prepend (req : CreateReq) (env : CreateEnv) (w : World)
    (author : String) (parsed : ParsedCreate) (e : CacheEntry)
    (hu : req.user = some author)
    (hp : parseCreate req.body = Except.ok parsed)
    (hok : req.file = none ∨ ∃ u, env.uploadResult = Except.ok u)
    (hc : cacheGet w.cache CACHE_KEY = some e)
    (hkey : POSTS_CACHE_KEY author ≠ CACHE_KEY) :
    (createPost req env w).1.status = 201 ∧
    cacheGet (createPost req env w).2.cache CACHE_KEY =
      some (CacheEntry.mk
        (populate (createPost req env w).2.store (newPostOf author parsed req env w)
          :: e.value) none) := by
  have hdel2 : ∀ c : Cache,
      cacheGet (cacheDel c (POSTS_CACHE_KEY author)) CACHE_KEY = cacheGet c CACHE_KEY :=
    fun c => cacheGet_cacheDel_ne c CACHE_KEY (POSTS_CACHE_KEY author) hkey
  have hdel1 : ∀ c : Cache,
      cacheGet (cacheDel c (PROFILE_CACHE_KEY author)) CACHE_KEY = cacheGet c CACHE_KEY :=
    fun c => cacheGet_cacheDel_ne c CACHE_KEY (PROFILE_CACHE_KEY author)
      (profile_key_ne author)
  cases hfile : req.file with
  | none =>
    simp only [createPost, hu, hp, hfile, finishCreate, newPostOf, imageUrlOf, hc,
      hdel1, hdel2, cacheGet_cacheSet_self, Resp.status]
    exact ⟨trivial, trivial⟩
  | some f =>
    rcases hok with hf | ⟨u, hup⟩
    · rw [hfile] at hf
      cases hf
    · simp only [createPost, hu, hp, hfile, hup, finishCreate, newPostOf, imageUrlOf,
        hc, hdel1, hdel2, cacheGet_cacheSet_self, Resp.status]
      exact ⟨trivial, trivial⟩

def reqC : CreateReq :=
  CreateReq.mk (some ("u1"))
    (RawCreateBody.mk (some ("new post")) none (some ("tech"))) none

def envC : CreateEnv :=
  CreateEnv.mk (Except.ok none) ("c2") ("bbbbbbbbbbbbbbbbbbbbbbbb") 9

def parsedC : ParsedCreate := ParsedCreate.mk ("new post") none ("tech")

/-- Witness for C2 at a concrete creation request against a warm cache. -/
theorem createPost_cache_prepend_witness :
    (createPost reqC envC wHit).1.status = 201 ∧
    cacheGet (createPost reqC envC wHit).2.cache CACHE_KEY =
      some (CacheEntry.mk
        (populate (createPost reqC envC wHit).2.store
          (newPostOf ("u1") parsedC reqC envC wHit) :: [pp1]) none) :=
  createPost_cache_prepend reqC envC wHit ("u1") parsedC
    (CacheEntry.mk [pp1] (some 43200)) rfl rfl (Or.inl rfl) rfl (by decide)

/-- C10: for a create request naming a category absent from the store and
supplying an image whose upload fails, the operation returns the upstream 500
error, persists no post and leaves the cache untouched — but the category
record created by the preceding get-or-create step remains in the store. -/
theorem createPost_upload_failure_keeps_category (req : CreateReq) (env : CreateEnv)
    (w : World) (author f msg : String) (parsed : ParsedCreate)
    (hu : req.user = some author)
    (hp : parseCreate req.body = Except.ok parsed)
    (hfile : req.file = some f)
    (hup : env.uploadResult = Except.error msg)
    (hcat : w.store.categories.find? (fun c => c.name == parsed.category) = none) :
    createPost req env w =
      (Resp.err 500 [cloudinaryFailMsg, msg],
       World.mk (Store.mk w.store.posts
         (w.store.categories ++ [Category.mk env.newCatId parsed.category])
         w.store.users) w.cache) := by
  simp [createPost, hu, hp, hfile, hup, getOrCreateCategory, hcat]

def reqC10 : CreateReq :=
  CreateReq.mk (some ("u1"))
    (RawCreateBody.mk (some ("pic post")) none (some ("art"))) (some ("tmp.jpg"))

def envC10 : CreateEnv :=
  CreateEnv.mk (Except.error ("network down")) ("c9") ("cccccccccccccccccccccccc") 11

/-- Witness for C10 at a concrete failing upload with a new category name. -/
theorem createPost_upload_failure_keeps_category_witness :
    createPost reqC10 envC10 wMiss =
      (Resp.err 500 [cloudinaryFailMsg, ("network down")],
       World.mk (Store.mk st1.posts (st1.categories ++ [Category.mk ("c9") ("art")])
         st1.users) wMiss.cache) :=
  createPost_upload_failure_keeps_category reqC10 envC10 wMiss ("u1") ("tmp.jpg")
    ("network down") (ParsedCreate.mk ("pic post") none ("art")) rfl rfl rfl rfl rfl

theorem findIdx?_lt_length {α : Type} (l : List α) (p : α → Bool) (i : Nat)
    (h : l.findIdx? p = some i) : i < l.length := by
  induction l generalizing i with
  | nil => simp [List.findIdx?] at h
  | cons hd tl ih =>
    rw [List.findIdx?_cons] at h
    simp only [List.length_cons]
    by_cases hp : p hd
    · simp [hp] at h
      omega
    · simp [hp] at h
      cases h2 : tl.findIdx? p with
      | none => simp [h2] at h
      | some j =>
        simp [h2] at h
        have := ih j h2
        omega

/-- C3: for every successful post update (body valid, post found, caller is
the author) while a cache entry exists under posts:all whose list contains
the identifier of the post at index i: the cache entry is rewritten (without TTL)
with the cached list patched at exactly index i by the re-resolved updated
post; the patched list has the same length, the patch sits at the same index
i, and every other index is unchanged. -/
theorem updatePost_cache_replace (postId userId : String) (body : RawUpdateBody)
    (w : World) (parsed : ParsedUpdate) (post : Post) (e : CacheEntry) (i : Nat)
    (hp : parseUpdate body = Except.ok parsed)
    (hf : findById w.store.posts postId = some post)
    (ha : post.author = userId)
    (hc : cacheGet w.cache CACHE_KEY = some e)
    (hi : e.value.findIdx? (fun p => p.id == postId) = some i)
    (hkey : POSTS_CACHE_KEY userId ≠ CACHE_KEY) :
    (updatePost postId (some userId) body w).1.status = 200 ∧
    cacheGet (updatePost postId (some userId) body w).2.cache CACHE_KEY =
      some (CacheEntry.mk
        (e.value.set i
          (populate (updatePost postId (some userId) body w).2.store
            (Post.mk post.id parsed.content post.author post.image post.tags
              post.category post.createdAt))) none) ∧
    (∀ pp : PPost, (e.value.set i pp).length = e.value.length ∧
      (e.value.set i pp)[i]? = some pp ∧
      ∀ j, j ≠ i → (e.value.set i pp)[j]? = e.value[j]?) := by
  have hlen := findIdx?_lt_length e.value (fun p => p.id == postId) i hi
  have hdel2 : ∀ c : Cache,
      cacheGet (cacheDel c (POSTS_CACHE_KEY userId)) CACHE_KEY = cacheGet c CACHE_KEY :=
    fun c => cacheGet_cacheDel_ne c CACHE_KEY (POSTS_CACHE_KEY userId) hkey
  have hdel1 : ∀ c : Cache,
      cacheGet (cacheDel c (PROFILE_CACHE_KEY userId)) CACHE_KEY = cacheGet c CACHE_KEY :=
    fun c => cacheGet_cacheDel_ne c CACHE_KEY (PROFILE_CACHE_KEY userId)
      (profile_key_ne userId)
  have hbeq : (post.author == userId) = true := by simp [ha]
  refine ⟨?_, ?_, ?_⟩
  · simp only [updatePost, hp, hf, hbeq, if_true, Resp.status]
  · simp only [updatePost, hp, hf, hbeq, if_true, hc, hi, hdel1, hdel2,
      cacheGet_cacheSet_self]
  · intro pp
    refine ⟨List.length_set e.value i pp, ?_, ?_⟩
    · simp [List.getElem?_set_self, hlen]
    · intro j hj
      rw [List.getElem?_set_ne (Ne.symm hj)]

/-- Witness for C3: a concrete content update patched into the warm cache. -/
theorem updatePost_cache_replace_witness :
    (updatePost pid1 (some ("u1")) (RawUpdateBody.mk (some ("updated!"))) wHit).1.status
      = 200 ∧
    cacheGet (updatePost pid1 (some ("u1")) (RawUpdateBody.mk (some ("updated!")))
        wHit).2.cache CACHE_KEY =
      some (CacheEntry.mk
        ([pp1].set 0
          (populate (updatePost pid1 (some ("u1")) (RawUpdateBody.mk (some ("updated!")))
              wHit).2.store
            (Post.mk post1.id (ParsedUpdate.mk ("updated!")).content post1.author
              post1.image post1.tags post1.category post1.createdAt))) none) ∧
    (∀ pp : PPost, ([pp1].set 0 pp).length = [pp1].length ∧
      ([pp1].set 0 pp)[0]? = some pp ∧
      ∀ j, j ≠ 0 → ([pp1].set 0 pp)[j]? = [pp1][j]?) :=
  updatePost_cache_replace pid1 ("u1") (RawUpdateBody.mk (some ("updated!"))) wHit
    (ParsedUpdate.mk ("updated!")) post1 (CacheEntry.mk [pp1] (some 43200)) 0
    rfl rfl rfl rfl rfl (by decide)

/-- C4: for every authenticated delete request the preconditions are checked
in order: a syntactically invalid post identifier is answered 400 bad-request
with no store access (empty access trace); a missing post 404; a caller
other than the author of the post 403; only when all pass is the post removed from
the store, and when a posts:all cache entry exists the deleted post is
filtered out of the cached list by identifier and the entry rewritten, so the
cached list afterwards contains no entry with that identifier. -/
theorem deletePost_preconditions (postId userId : String) (w : World)
    (hkey : POSTS_CACHE_KEY userId ≠ CACHE_KEY) :
    (isValidObjectId postId = false →
      deletePost postId (some userId) w = (Resp.err 400 [invalidIdMsg], w, [])) ∧
    (isValidObjectId postId = true → findById w.store.posts postId = none →
      deletePost postId (some userId) w
        = (Resp.err 404 [delNotFoundMsg], w, [Ev.storeRead])) ∧
    (∀ post, isValidObjectId postId = true →
      findById w.store.posts postId = some post → post.author ≠ userId →
      deletePost postId (some userId) w
        = (Resp.err 403 [delNotAuthMsg], w, [Ev.storeRead])) ∧
    (∀ post, isValidObjectId postId = true →
      findById w.store.posts postId = some post → post.author = userId →
      (deletePost postId (some userId) w).1 = Resp.deleteOk postId ∧
      (deletePost postId (some userId) w).2.1.store.posts
        = erasePost postId w.store.posts ∧
      (∀ e, cacheGet w.cache CACHE_KEY = some e →
        cacheGet (deletePost postId (some userId) w).2.1.cache CACHE_KEY =
          some (CacheEntry.mk (e.value.filter (fun p => p.id != postId)) none) ∧
        ∀ q ∈ e.value.filter (fun p => p.id != postId), q.id ≠ postId)) := by
  have hdel2 : ∀ c : Cache,
      cacheGet (cacheDel c (POSTS_CACHE_KEY userId)) CACHE_KEY = cacheGet c CACHE_KEY :=
    fun c => cacheGet_cacheDel_ne c CACHE_KEY (POSTS_CACHE_KEY userId) hkey
  have hdel1 : ∀ c : Cache,
      cacheGet (cacheDel c (PROFILE_CACHE_KEY userId)) CACHE_KEY = cacheGet c CACHE_KEY :=
    fun c => cacheGet_cacheDel_ne c CACHE_KEY (PROFILE_CACHE_KEY userId)
      (profile_key_ne userId)
  refine ⟨?_, ?_, ?_, ?_⟩
  · intro h
    simp [deletePost, h]
  · intro hv hf
    simp [deletePost, hv, hf]
  · intro post hv hf hne
    have hbeq : (post.author == userId) = false := beq_eq_false_iff_ne.mpr hne
    simp [deletePost, hv, hf, hbeq]
  · intro post hv hf ha
    have hbeq : (post.author == userId) = true := by simp [ha]
    refine ⟨?_, ?_, ?_⟩
    · simp [deletePost, hv, hf, hbeq]
    · simp [deletePost, hv, hf, hbeq]
    · intro e he
      constructor
      · simp only [deletePost, hv, hf, hbeq, if_true, he, hdel1, hdel2,
          cacheGet_cacheSet_self]
      · intro q hq
        simp only [List.mem_filter, bne_iff_ne] at hq
        exact hq.2

/-- Witness for C4: the invalid-identifier branch and the full success branch
with the warm cache, at concrete inputs. -/
theorem deletePost_preconditions_witness :
    deletePost ("bad") (some ("u1")) wHit = (Resp.err 400 [invalidIdMsg], wHit, []) ∧
    (deletePost pid1 (some ("u1")) wHit).1 = Resp.deleteOk pid1 ∧
    cacheGet (deletePost pid1 (some ("u1")) wHit).2.1.cache CACHE_KEY =
      some (CacheEntry.mk ([pp1].filter (fun p => p.id != pid1)) none) :=
  ⟨(deletePost_preconditions ("bad") ("u1") wHit (by decide)).1 rfl,
   ((deletePost_preconditions pid1 ("u1") wHit (by decide)).2.2.2 post1 rfl rfl rfl).1,
   (((deletePost_preconditions pid1 ("u1") wHit (by decide)).2.2.2 post1 rfl rfl
      rfl).2.2 (CacheEntry.mk [pp1] (some 43200)) rfl).1⟩

/-- C7: for every well-formed update or delete request (valid body for
update, syntactically valid id for delete) by an authenticated caller who is
not the author of the found post, the result is 403 forbidden and the world —
store and cache alike — is completely unchanged: the ownership comparison
precedes any store mutation. -/
theorem ownership_forbidden (postId userId : String) (w : World) (post : Post)
    (body : RawUpdateBody) (parsed : ParsedUpdate)
    (hf : findById w.store.posts postId = some post)
    (hne : post.author ≠ userId)
    (hp : parseUpdate body = Except.ok parsed)
    (hv : isValidObjectId postId = true) :
    updatePost postId (some userId) body w = (Resp.err 403 [updNotAuthMsg], w) ∧
    deletePost postId (some userId) w
      = (Resp.err 403 [delNotAuthMsg], w, [Ev.storeRead]) := by
  have hbeq : (post.author == userId) = false := beq_eq_false_iff_ne.mpr hne
  constructor
  · simp [updatePost, hp, hf, hbeq]
  · simp [deletePost, hv, hf, hbeq]

/-- Witness for C7: a caller distinct from the author is refused with the
world untouched, at concrete inputs. -/
theorem ownership_forbidden_witness :
    updatePost pid1 (some ("u2")) (RawUpdateBody.mk (some ("x"))) wHit =
      (Resp.err 403 [updNotAuthMsg], wHit) ∧
    deletePost pid1 (some ("u2")) wHit
      = (Resp.err 403 [delNotAuthMsg], wHit, [Ev.storeRead]) :=
  ownership_forbidden pid1 ("u2") wHit post1 (RawUpdateBody.mk (some ("x")))
    (ParsedUpdate.mk ("x")) rfl (by decide) rfl rfl

/-- C8 counterexample: an authenticated update on an existing post whose body
fails validation (empty content) is answered 500 with the generic failure
message — not 400 with field-level messages — because the catch block of the
update handler has no ZodError branch. -/
theorem updatePost_validation_500_counterexample :
    updatePost pid1 (some ("u1")) (RawUpdateBody.mk (some (""))) wHit =
      (Resp.err 500 [updateFailMsg], wHit) ∧
    (updatePost pid1 (some ("u1")) (RawUpdateBody.mk (some (""))) wHit).1.status
      ≠ 400 := by
  constructor
  · rfl
  · decide

/-- C8 amended: a create request failing validation is answered 400 with the
field-level issue messages and mutates nothing; an update request failing
validation also mutates nothing, but is answered 500 with the generic update
failure message rather than 400. -/
theorem validation_failure_no_mutation (req : CreateReq) (env : CreateEnv)
    (w1 : World) (A : String) (es : List String) (postId U : String)
    (body : RawUpdateBody) (w2 : World) (es2 : List String) :
    (req.user = some A → parseCreate req.body = Except.error es →
      createPost req env w1 = (Resp.err 400 es, w1)) ∧
    (parseUpdate body = Except.error es2 →
      updatePost postId (some U) body w2 = (Resp.err 500 [updateFailMsg], w2)) := by
  constructor
  · intro hu hp
    simp [createPost, hu, hp]
  · intro hp
    simp [updatePost, hp]

/-- Witness for the amended C8: an empty-content create body yields 400 with
both issue messages; a missing-content update body yields the generic 500. -/
theorem validation_failure_no_mutation_witness :
    createPost (CreateReq.mk (some ("u1")) (RawCreateBody.mk (some ("")) none none)
        none) envC wHit =
      (Resp.err 400 [contentMinMsg, requiredMsg], wHit) ∧
    updatePost pid1 (some ("u1")) (RawUpdateBody.mk none) wHit =
      (Resp.err 500 [updateFailMsg], wHit) :=
  ⟨(validation_failure_no_mutation
      (CreateReq.mk (some ("u1")) (RawCreateBody.mk (some ("")) none none) none)
      envC wHit ("u1") [contentMinMsg, requiredMsg] pid1 ("u1")
      (RawUpdateBody.mk none) wHit [requiredMsg]).1 rfl rfl,
   (validation_failure_no_mutation
      (CreateReq.mk (some ("u1")) (RawCreateBody.mk (some ("")) none none) none)
      envC wHit ("u1") [contentMinMsg, requiredMsg] pid1 ("u1")
      (RawUpdateBody.mk none) wHit [requiredMsg]).2 rfl⟩

/-- C9 counterexample: content consisting of a single space passes the
creation validation — the min-length check runs before the trimming
transform — and the resulting parsed (hence stored) content is the empty
string, which trims to empty. -/
theorem whitespace_content_accepted_counterexample :
    parseCreate (RawCreateBody.mk (some (" ")) none (some ("tech"))) =
      Except.ok (ParsedCreate.mk ("") none ("tech")) ∧
    jsTrim (" ") = ("") :=
  ⟨rfl, rfl⟩

theorem getOrCreateCategory_posts (n cid : String) (st : Store) :
    ((getOrCreateCategory n cid st).2).posts = st.posts := by
  unfold getOrCreateCategory
  cases st.categories.find? (fun c => c.name == n) <;> rfl

/-- C9 amended: every create body accepted by validation has content of
length at least 1 BEFORE trimming — whitespace-only content is accepted —
and the parsed content, which a successful creation stores verbatim in the
new post, equals the trimmed input and may therefore be empty. -/
theorem parseCreate_content_trimmed (b : RawCreateBody) (parsed : ParsedCreate)
    (h : parseCreate b = Except.ok parsed) :
    (∃ s, b.content = some s ∧ 1 ≤ s.length ∧ parsed.content = jsTrim s) ∧
    ∀ (req : CreateReq) (env : CreateEnv) (w : World) (author : String),
      req.body = b → req.user = some author →
      (req.file = none ∨ ∃ u, env.uploadResult = Except.ok u) →
      (createPost req env w).2.store.posts
        = w.store.posts ++ [newPostOf author parsed req env w] ∧
      (newPostOf author parsed req env w).content = parsed.content := by
  constructor
  · cases hbc : b.content with
    | none => simp [parseCreate, hbc] at h
    | some s =>
      cases hcat : b.category with
      | none =>
        rw [parseCreate, hbc, hcat] at h
        by_cases hl : s.length ≥ 1 <;> simp [hl] at h
      | some c =>
        rw [parseCreate, hbc, hcat] at h
        by_cases hl : s.length ≥ 1
        · by_cases hl2 : c.length ≥ 1
          · simp only [hl, hl2, if_true, Except.ok.injEq] at h
            exact ⟨s, rfl, hl, by rw [← h]⟩
          · simp [hl, hl2] at h
        · simp [hl] at h
  · intro req env w author hb hu hok
    have hp : parseCreate req.body = Except.ok parsed := by rw [hb]; exact h
    cases hfile : req.file with
    | none =>
      simp only [createPost, hu, hp, hfile, finishCreate, newPostOf, imageUrlOf,
        getOrCreateCategory_posts]
      exact ⟨trivial, trivial⟩
    | some f =>
      rcases hok with hf | ⟨u, hup⟩
      · rw [hfile] at hf
        cases hf
      · simp only [createPost, hu, hp, hfile, hup, finishCreate, newPostOf,
          imageUrlOf, getOrCreateCategory_posts]
        exact ⟨trivial, trivial⟩

/-- Witness for the amended C9 at a concrete accepted create request. -/
theorem parseCreate_content_trimmed_witness :
    (∃ s, reqC.body.content = some s ∧ 1 ≤ s.length ∧ parsedC.content = jsTrim s) ∧
    (createPost reqC envC wHit).2.store.posts
      = wHit.store.posts ++ [newPostOf ("u1") parsedC reqC envC wHit] ∧
    (newPostOf ("u1") parsedC reqC envC wHit).content = parsedC.content :=
  ⟨(parseCreate_content_trimmed reqC.body parsedC rfl).1,
   (parseCreate_content_trimmed reqC.body parsedC rfl).2 reqC envC wHit ("u1")
     rfl rfl (Or.inl rfl)⟩

theorem posts_key_ne_profile_key (u : String) :
    POSTS_CACHE_KEY u ≠ PROFILE_CACHE_KEY u := by
  intro h
  have h2 := congrArg String.length h
  rw [POSTS_CACHE_KEY, PROFILE_CACHE_KEY, String.length_append,
    String.length_append] at h2
  have e1 : String.length ("posts:") = 6 := rfl
  have e2 : String.length ("profile:") = 8 := rfl
  rw [e1, e2] at h2
  omega

/-- C6: after every successful create, update or delete performed by user U,
the cache keys profile:U and posts:U — built with exactly these key formats,
the global list key being exactly posts:all — are absent from the Cache
Layer in the resulting world, unconditionally, whatever the list-cache state
was and whether or not it was patched. -/
theorem mutation_invalidates_user_keys (U : String) (req : CreateReq)
    (env : CreateEnv) (w1 : World) (postId : String) (body : RawUpdateBody)
    (w2 : World) (did : String) (w3 : World) :
    (req.user = some U → (createPost req env w1).1.status = 201 →
      cacheGet (createPost req env w1).2.cache (PROFILE_CACHE_KEY U) = none ∧
      cacheGet (createPost req env w1).2.cache (POSTS_CACHE_KEY U) = none) ∧
    ((updatePost postId (some U) body w2).1.status = 200 →
      cacheGet (updatePost postId (some U) body w2).2.cache (PROFILE_CACHE_KEY U)
        = none ∧
      cacheGet (updatePost postId (some U) body w2).2.cache (POSTS_CACHE_KEY U)
        = none) ∧
    ((deletePost did (some U) w3).1.status = 200 →
      cacheGet (deletePost did (some U) w3).2.1.cache (PROFILE_CACHE_KEY U) = none ∧
      cacheGet (deletePost did (some U) w3).2.1.cache (POSTS_CACHE_KEY U) = none) ∧
    PROFILE_CACHE_KEY U = ("profile:") ++ U ∧
    POSTS_CACHE_KEY U = ("posts:") ++ U ∧
    CACHE_KEY = ("posts:all") := by
  have habsent : ∀ c : Cache,
      cacheGet (cacheDel (cacheDel c (PROFILE_CACHE_KEY U)) (POSTS_CACHE_KEY U))
        (PROFILE_CACHE_KEY U) = none ∧
      cacheGet (cacheDel (cacheDel c (PROFILE_CACHE_KEY U)) (POSTS_CACHE_KEY U))
        (POSTS_CACHE_KEY U) = none := by
    intro c
    constructor
    · rw [cacheGet_cacheDel_ne _ _ _ (posts_key_ne_profile_key U)]
      exact cacheGet_cacheDel_self _ _
    · exact cacheGet_cacheDel_self _ _
  refine ⟨?_, ?_, ?_, rfl, rfl, rfl⟩
  · intro hu hs
    cases hpc : parseCreate req.body with
    | error es =>
      simp only [createPost, hu, hpc, Resp.status] at hs
      exact absurd hs (by decide)
    | ok parsed =>
      cases hfile : req.file with
      | none =>
        simp only [createPost, hu, hpc, hfile, finishCreate]
        exact habsent _
      | some f =>
        cases hup : env.uploadResult with
        | error msg =>
          simp only [createPost, hu, hpc, hfile, hup, Resp.status] at hs
          exact absurd hs (by decide)
        | ok u =>
          simp only [createPost, hu, hpc, hfile, hup, finishCreate]
          exact habsent _
  · intro hs
    cases hpu : parseUpdate body with
    | error es => simp [updatePost, hpu, Resp.status] at hs
    | ok parsed =>
      cases hfp : findById w2.store.posts postId with
      | none => simp [updatePost, hpu, hfp, Resp.status] at hs
      | some post =>
        cases hb : post.author == U with
        | false => simp [updatePost, hpu, hfp, hb, Resp.status] at hs
        | true =>
          simp only [updatePost, hpu, hfp, hb, if_true]
          exact habsent _
  · intro hs
    cases hv : isValidObjectId did with
    | false => simp [deletePost, hv, Resp.status] at hs
    | true =>
      cases hfp : findById w3.store.posts did with
      | none => simp [deletePost, hv, hfp, Resp.status] at hs
      | some post =>
        cases hb : post.author == U with
        | false => simp [deletePost, hv, hfp, hb, Resp.status] at hs
        | true =>
          simp only [deletePost, hv, hfp, hb, if_true]
          exact habsent _

/-- Witness for C6: at one successful create, update and delete each, both
per-user keys are absent afterwards. -/
theorem mutation_invalidates_user_keys_witness :
    (cacheGet (createPost reqC envC wHit).2.cache (PROFILE_CACHE_KEY ("u1")) = none ∧
     cacheGet (createPost reqC envC wHit).2.cache (POSTS_CACHE_KEY ("u1")) = none) ∧
    (cacheGet (updatePost pid1 (some ("u1")) (RawUpdateBody.mk (some ("y")))
        wHit).2.cache (PROFILE_CACHE_KEY ("u1")) = none ∧
     cacheGet (updatePost pid1 (some ("u1")) (RawUpdateBody.mk (some ("y")))
        wHit).2.cache (POSTS_CACHE_KEY ("u1")) = none) ∧
    (cacheGet (deletePost pid1 (some ("u1")) wHit).2.1.cache
        (PROFILE_CACHE_KEY ("u1")) = none ∧
     cacheGet (deletePost pid1 (some ("u1")) wHit).2.1.cache
        (POSTS_CACHE_KEY ("u1")) = none) :=
  ⟨(mutation_invalidates_user_keys ("u1") reqC envC wHit pid1
      (RawUpdateBody.mk (some ("y"))) wHit pid1 wHit).1 rfl rfl,
   (mutation_invalidates_user_keys ("u1") reqC envC wHit pid1
      (RawUpdateBody.mk (some ("y"))) wHit pid1 wHit).2.1 rfl,
   (mutation_invalidates_user_keys ("u1") reqC envC wHit pid1
      (RawUpdateBody.mk (some ("y"))) wHit pid1 wHit).2.2.1 rfl⟩
